import Mathlib

/-!
Verification of the astro-engine event-dispatch and conversational-orchestration
core: a shallow embedding of `worker.py`, `app/services/realtime_service.py`,
`app/services/tagging_service.py` and the call boundaries they use, together
with theorems settling the spec's testable properties.

External collaborators (the persisted store, the generative gateway, the
embedding provider) are modelled as explicit parameters/oracles; database
writes are modelled as effect lists so that side-effect claims are statements
about which effects a run emits.
-/

namespace AstroEngine

/-! ## Python-like dynamic values

Inbound payloads are opaque JSON.  `PyVal` models the Python values the code
manipulates, `PyErr` the exceptions the code can raise, and the access
helpers mirror Python semantics: subscription (`d[k]`) raises `KeyError` /
`TypeError`, `dict.get` returns a default, `if x:` tests truthiness. -/

inductive PyVal where
  | none
  | str (s : String)
  | num (n : Nat)
  | dict (fields : List (String × PyVal))
  | list (xs : List PyVal)

inductive PyErr where
  | typeError (msg : String)
  | valueError (msg : String)
  | keyError (k : String)
  | indexError
  | attributeError (msg : String)
  | apiError (msg : String)

/-- `str(e)` as recorded into `last_error`. -/
def PyErr.msg : PyErr → String
  | .typeError m => m
  | .valueError m => m
  | .keyError k => k
  | .indexError => "list index out of range"
  | .attributeError m => m
  | .apiError m => m

/-- Python `d[k]` on a (JSON) value: `KeyError` when absent, `TypeError`
when the value is not a dict. -/
def PyVal.item (v : PyVal) (k : String) : Except PyErr PyVal :=
  match v with
  | .dict fs =>
    match fs.lookup k with
    | some x => .ok x
    | Option.none => .error (.keyError k)
  | _ => .error (.typeError "object is not subscriptable")

/-- Python `xs[i]` on a (JSON) value. -/
def PyVal.index (v : PyVal) (i : Nat) : Except PyErr PyVal :=
  match v with
  | .list xs =>
    match xs.get? i with
    | some x => .ok x
    | Option.none => .error .indexError
  | _ => .error (.typeError "object is not subscriptable")

/-- Python `d.get(k, default)`: only dicts have `.get`; on anything else the
attribute access raises. -/
def PyVal.getD (v : PyVal) (k : String) (d : PyVal) : Except PyErr PyVal :=
  match v with
  | .dict fs =>
    match fs.lookup k with
    | some x => .ok x
    | Option.none => .ok d
  | _ => .error (.attributeError "object has no attribute get")

/-- Python truthiness: `None`, `""`, `0`, `{}`, `[]` are falsy. -/
def PyVal.truthy : PyVal → Bool
  | .none => false
  | .str s => !(s == "")
  | .num n => !(n == 0)
  | .dict fs => !fs.isEmpty
  | .list xs => !xs.isEmpty

/-- Python `s.lower()` (the tag names in this code are ASCII): lower-case
every character. -/
def pyLower (s : String) : String := String.mk (s.data.map Char.toLower)

/-- Python `v == "lit"` for a string literal: true exactly when `v` is that
string. -/
def PyVal.eqStr (v : PyVal) (s : String) : Bool :=
  match v with
  | .str t => t == s
  | _ => false

/-- Python `v.asStr`: the payload fields the service stores as text
(channel address, message body, routing id) are modelled as strings. -/
def PyVal.asStr (v : PyVal) : Except PyErr String :=
  match v with
  | .str s => .ok s
  | _ => .error (.typeError "expected a string")

/-! ## Python call binding

The two call-site bugs in this repository are keyword/arity mismatches, so
the binding step of a Python call is made explicit: a call succeeds only if
every supplied keyword names a declared parameter and every required
parameter is supplied. -/

/-- Keyword-call binding: `True` iff the set of supplied keyword names is
exactly the set of declared parameter names (all parameters here are
required and the calls supply keywords only). -/
def bindKwargs (params kwargs : List String) : Bool :=
  kwargs.all (fun k => params.contains k) && params.all (fun p => kwargs.contains p)

/-- Parameter list of `outbound_service.send_whatsapp_message`
(src/app/services/outbound_service.py): `(tenant_id, message_payload)`. -/
def send_whatsapp_message_params : List String := ["tenant_id", "message_payload"]

/-- Keywords supplied by the call in `process_realtime_tasks`
(src/worker.py line 88): `business_id=..., message_payload=...`. -/
def worker_send_call_kwargs : List String := ["business_id", "message_payload"]

/-- Required parameters of `query_service.refine_user_query`
(src/app/services/query_service.py lines 11-16): `raw_user_message`,
`business_name`, `business_bio`, `conversation_history` — none has a
default. -/
def refine_user_query_params : List String :=
  ["raw_user_message", "business_name", "business_bio", "conversation_history"]

/-- Positional arguments supplied by the call in
`RealtimeService._gather_context` (realtime_service.py line 251):
`refine_user_query(self.user_message)` — a single argument. -/
def gather_context_refine_call_argc : Nat := 1

/-! ## Dispatcher (`worker.py`, `dispatch_events`)

One iteration's work on a claimed `event_dispatcher` row.  The atomic claim
itself is the store's `get_and_lock_dispatcher_event` RPC (external); the
embedding covers the routing logic that runs on the claimed row. -/

structure DispatcherEvent where
  id : Nat
  event_type : String
  payload : PyVal

/-- Store writes the dispatcher can perform. -/
inductive DispatchEffect where
  | insertRealtimeTask (event_type : String) (payload : PyVal)
  | updateEventStatus (id : Nat) (status : String)

/-- The routing logic of `dispatch_events` on one claimed event
(worker.py lines 26-43). -/
def dispatchClaimedEvent (ev : DispatcherEvent) : List DispatchEffect :=
  if ev.event_type == "new_inbound_message" then
    [.insertRealtimeTask "handle_user_message" ev.payload]
  else if ev.event_type == "send_outbound_message" then
    [.insertRealtimeTask "execute_whatsapp_send" ev.payload]
  else
    [.updateEventStatus ev.id "failed"]

/-! ## Realtime Task Worker (`worker.py`, `process_realtime_tasks`)

One iteration's work on a claimed `realtime_tasks` row.  The
`handle_user_message` branch hands the payload to the orchestrator, which is
a parameter here (it is verified separately below); the
`execute_whatsapp_send` branch is embedded in full. -/

structure RealtimeTask where
  id : Nat
  event_type : PyVal
  payload : PyVal

/-- Effects the realtime worker iteration can perform. -/
inductive RTEffect where
  | delegateWhatsappSend (business_id : PyVal) (message_payload : PyVal)
  | logUnsupportedChannel (channel : PyVal)
  | updateTaskStatus (id : Nat) (status : String) (last_error : Option String)

/-- Body of the `execute_whatsapp_send` branch (worker.py lines 76-90):
extract `config.business_id`, `config.channel`, `data`; missing (falsy)
fields raise `ValueError`; the whatsapp branch performs the
`send_whatsapp_message(business_id=..., message_payload=...)` call, whose
keyword binding is checked against the callee's declared parameters; other
channels log and fall through. -/
def executeWhatsappSendBody (payload : PyVal) : Except PyErr (List RTEffect) := do
  let config ← payload.getD "config" (.dict [])
  let business_id ← config.getD "business_id" .none
  let channel ← config.getD "channel" .none
  let message_payload ← payload.getD "data" .none
  if !(business_id.truthy && channel.truthy && message_payload.truthy) then
    .error (.valueError "Missing business_id, channel, or data payload for sending message.")
  else if channel.eqStr "whatsapp" then
    if bindKwargs send_whatsapp_message_params worker_send_call_kwargs then
      .ok [.delegateWhatsappSend business_id message_payload]
    else
      .error (.typeError "send_whatsapp_message got an unexpected keyword argument business_id")
  else
    .ok [.logUnsupportedChannel channel]

/-- One claimed-task iteration of `process_realtime_tasks` (worker.py lines
69-100): dispatch on `event_type`; on normal return mark the task
`complete`; on any exception mark it `failed` with the message in
`last_error`.  `orch` is the orchestrator invocation for the
`handle_user_message` branch. -/
def processClaimedTask (orch : PyVal → Except PyErr (List RTEffect))
    (t : RealtimeTask) : List RTEffect :=
  let body : Except PyErr (List RTEffect) :=
    if t.event_type.eqStr "handle_user_message" then orch t.payload
    else if t.event_type.eqStr "execute_whatsapp_send" then executeWhatsappSendBody t.payload
    else .error (.valueError "Unknown event_type in realtime_tasks")
  match body with
  | .ok effs => effs ++ [.updateTaskStatus t.id "complete" Option.none]
  | .error e => [.updateTaskStatus t.id "failed" (some e.msg)]

/-- An orchestrator stub for closed evaluations (the branch under test never
invokes it). -/
def orchUnused : PyVal → Except PyErr (List RTEffect) := fun _ => .ok []

/-- A fully populated `execute_whatsapp_send` task for the whatsapp channel:
payload `{data: {..}, config: {channel: "whatsapp", business_id: "b-1"}}`. -/
def whatsappSendTask : RealtimeTask :=
  { id := 1
    event_type := .str "execute_whatsapp_send"
    payload := .dict
      [ ("data", .dict [("messaging_product", .str "whatsapp"), ("to", .str "254700000001")])
      , ("config", .dict [("channel", .str "whatsapp"), ("business_id", .str "b-1")]) ] }

/-! ## Conversation Orchestrator (`app/services/realtime_service.py`)

The store tables the orchestrator reads and writes are modelled as typed
rows; the generative gateway and the retrieval pipeline are oracles. -/

structure Business where
  id : String
  system_prompt : String
  business_name : String
  whatsapp_phone_number_id : String

structure Customer where
  id : String
  business_id : String
  phone_number : String
  customer_name : String

structure ConversationRow where
  customer_id : String
  role : String
  content : String
  created_at : Nat

structure MemoryRow where
  customer_id : String
  fact_key : String
  fact_value : String

structure DB where
  businesses : List Business
  customers : List Customer
  conversations : List ConversationRow
  customer_memory : List MemoryRow

/-- `LLMContext` (realtime_service.py lines 82-85); history rows carry their
timestamps here although the query projects `role, content` — the
projection is applied where the history is serialized. -/
structure LLMContext where
  history : List ConversationRow := []
  long_term_memory : List MemoryRow := []
  rag_knowledge : List String := []

/-- `ToolName` enum (app/api/schemas.py lines 142-145). -/
inductive ToolName where
  | queue_for_profiling
  | request_human_intervention
  | lookup_product_info

/-- `ToolCallArgument` (schemas.py lines 134-139). -/
structure ToolCallArgument where
  summary_of_new_info : Option String := Option.none
  product_name : Option String := Option.none
  category : Option String := Option.none
  reason : Option String := Option.none

structure ToolCall where
  name : ToolName
  arguments : ToolCallArgument

/-- `ActionPlan` (schemas.py lines 151-159). -/
structure ActionPlan where
  response_text : String
  tool_calls : List ToolCall := []

/-- Store writes the orchestrator can perform. -/
inductive RSEffect where
  | insertCustomer (c : Customer)
  | enqueueOutboundEvent (event_type : String) (payload : PyVal)
  | insertProfilingTask (customer_id business_id : String)
      (summary : Option String) (full_conversation : List (String × String))
  | insertConversationRows (entries : List (String × String × String))

/-- How the run resolved. -/
inductive RunOutcome where
  | abortedIdentity
  | abortedCustomer
  | abortedPlan
  | executed

/-- Payload deconstruction in `_deconstruct_and_fetch_business`
(realtime_service.py lines 148-151): `payload['entry'][0]['changes'][0]
['value']`, then `wa_id`, message body and `phone_number_id`. -/
def parseInbound (payload : PyVal) : Except PyErr (String × String × String) := do
  let entry ← payload.item "entry"
  let entry0 ← entry.index 0
  let changes ← entry0.item "changes"
  let changes0 ← changes.index 0
  let value ← changes0.item "value"
  let contacts ← value.item "contacts"
  let contacts0 ← contacts.index 0
  let user_phone ← (← contacts0.item "wa_id").asStr
  let messages ← value.item "messages"
  let messages0 ← messages.index 0
  let text ← messages0.item "text"
  let user_message ← (← text.item "body").asStr
  let metadata ← value.item "metadata"
  let business_phone_id ← (← metadata.item "phone_number_id").asStr
  pure (user_phone, user_message, business_phone_id)

/-- The `businesses` lookup with `.single()` (realtime_service.py line 153):
succeeds only when the filter matches exactly one row. -/
def fetchBusiness (db : DB) (pid : String) : Except PyErr Business :=
  match db.businesses.filter (fun b => b.whatsapp_phone_number_id == pid) with
  | [b] => .ok b
  | _ => .error (.apiError "single row expected")

/-- Step 1, `_deconstruct_and_fetch_business` (lines 141-162): any exception
is caught and reported as `False` (here `none`). -/
def deconstructAndFetchBusiness (db : DB) (payload : PyVal) :
    Option (Business × String × String) :=
  match parseInbound payload with
  | .error _ => Option.none
  | .ok (user_phone, user_message, business_phone_id) =>
    match fetchBusiness db business_phone_id with
    | .error _ => Option.none
    | .ok b => some (b, user_phone, user_message)

/-- The display name `payload['entry'][0]['changes'][0]['value']['contacts']
[0]['profile']['name']` (line 195). -/
def payloadProfileName (payload : PyVal) : Except PyErr String := do
  let entry ← payload.item "entry"
  let entry0 ← entry.index 0
  let changes ← entry0.item "changes"
  let changes0 ← changes.index 0
  let value ← changes0.item "value"
  let contacts ← value.item "contacts"
  let contacts0 ← contacts.index 0
  let profile ← contacts0.item "profile"
  (← profile.item "name").asStr

/-- The `customers` filter used by both the find and the refetch queries
(lines 178-183, 211-216). -/
def findCustomers (customers : List Customer) (bid phone : String) : List Customer :=
  customers.filter (fun c => c.business_id == bid && c.phone_number == phone)

/-- Step 2, `_fetch_or_create_customer` (lines 165-226): guard on business
and phone; find (limit 1); else read the display name from the payload,
insert a new row (the store assigns `freshId`), refetch with `.single()`.
Any exception is caught and reported as `none`; the insert, once performed,
is not rolled back.  Returns the customer, the updated store, and the write
effects. -/
def fetchOrCreateCustomer (db : DB) (payload : PyVal) (bid phone : String)
    (freshId : String) : Option Customer × DB × List RSEffect :=
  if phone == "" then (Option.none, db, [])
  else
    match (findCustomers db.customers bid phone).take 1 with
    | c :: _ => (some c, db, [])
    | [] =>
      match payloadProfileName payload with
      | .error _ => (Option.none, db, [])
      | .ok name =>
        let newC : Customer := ⟨freshId, bid, phone, name⟩
        let db1 : DB := { db with customers := db.customers ++ [newC] }
        match findCustomers db1.customers bid phone with
        | [c] => (some c, db1, [.insertCustomer newC])
        | _ => (Option.none, db1, [.insertCustomer newC])

/-- The history query (line 240): filter by customer, order by `created_at`
descending, limit 8 — then the service reverses it (line 241).
`sortDescInsert`/`sortByCreatedAtDesc` model the store's descending sort. -/
def sortDescInsert (t : ConversationRow) : List ConversationRow → List ConversationRow
  | [] => [t]
  | h :: rest =>
    if h.created_at ≤ t.created_at then t :: h :: rest
    else h :: sortDescInsert t rest

def sortByCreatedAtDesc (rows : List ConversationRow) : List ConversationRow :=
  rows.foldr sortDescInsert []

/-- `list(reversed(history_res.data))` over the newest-first, limit-8 query. -/
def historyQuery (db : DB) (cid : String) : List ConversationRow :=
  (((sortByCreatedAtDesc
      (db.conversations.filter (fun r => r.customer_id == cid))).take 8)).reverse

/-- The long-term-memory query (line 245): filter by customer, limit 10. -/
def memoryQuery (db : DB) (cid : String) : List MemoryRow :=
  (db.customer_memory.filter (fun m => m.customer_id == cid)).take 10

/-- Oracles for the knowledge-retrieval pipeline: the body of
`refine_user_query` (were it reached), `openai_service.get_embedding`, and
the `match_knowledge` similarity search.  Each may raise. -/
structure RagOracles where
  refineBody : String → Except PyErr String
  getEmbedding : String → Except PyErr (List Int)
  matchKnowledge : List Int → String → Except PyErr (List String)

/-- The call `query_service.refine_user_query(self.user_message)` (line
251): binding one positional argument against the callee's four required
parameters; a shortfall raises `TypeError` before the body runs. -/
def callRefineUserQuery (o : RagOracles) (msg : String) : Except PyErr String :=
  if gather_context_refine_call_argc < refine_user_query_params.length then
    .error (.typeError "refine_user_query missing required positional arguments")
  else o.refineBody msg

/-- The body of the RAG `try` block (lines 250-257): rewrite, embed,
similarity-search, collect `content` fields. -/
def ragBlock (o : RagOracles) (bid msg : String) : Except PyErr (List String) := do
  let refined ← callRefineUserQuery o msg
  let embedding ← o.getEmbedding refined
  o.matchKnowledge embedding bid

/-- Step 3, `_gather_context` (lines 228-264): history and memory only when
a customer exists; the RAG block only when the message is truthy, with any
exception swallowed (knowledge left at its empty initial value). -/
def gatherContext (o : RagOracles) (db : DB) (cust : Option Customer)
    (bid msg : String) : LLMContext :=
  let history := match cust with
    | some c => historyQuery db c.id
    | Option.none => []
  let ltm := match cust with
    | some c => memoryQuery db c.id
    | Option.none => []
  let rag :=
    if msg == "" then []
    else
      match ragBlock o bid msg with
      | .ok xs => xs
      | .error _ => []
  { history := history, long_term_memory := ltm, rag_knowledge := rag }

/-- The outbound whatsapp text envelope built in `_execute_action_plan`
(lines 346-351). -/
def whatsappTextPayload (dest body : String) : PyVal :=
  .dict [ ("messaging_product", .str "whatsapp"), ("to", .str dest)
        , ("type", .str "text"), ("text", .dict [("body", .str body)]) ]

/-- The `event_dispatcher` row payload for the outbound send (line 352). -/
def outboundEventPayload (dest body bid : String) : PyVal :=
  .dict [ ("data", whatsappTextPayload dest body)
        , ("config", .dict [("channel", .str "whatsapp"), ("business_id", .str bid)]) ]

/-- Step 5, `_execute_action_plan` (lines 332-369): queue the reply if
`response_text` is truthy; queue a profiling task per `queue_for_profiling`
tool call (skipped without a customer); persist the two conversation rows
only when both a customer exists and a reply was produced. -/
def executeActionPlan (b : Business) (phone : String) (cust : Option Customer)
    (ctx : LLMContext) (msg : String) (plan : ActionPlan) : List RSEffect :=
  if phone == "" then []
  else
    let sendEffs :=
      if plan.response_text == "" then []
      else [RSEffect.enqueueOutboundEvent "send_outbound_message"
              (outboundEventPayload phone plan.response_text b.id)]
    let profEffs := plan.tool_calls.filterMap (fun tc =>
      match tc.name with
      | .queue_for_profiling =>
        match cust with
        | some c => some (RSEffect.insertProfilingTask c.id b.id
            tc.arguments.summary_of_new_info
            ((ctx.history.map (fun r => (r.role, r.content))) ++ [("user", msg)]))
        | Option.none => Option.none
      | _ => Option.none)
    let convoEffs :=
      match cust with
      | some c =>
        if plan.response_text == "" then []
        else [RSEffect.insertConversationRows
                [(c.id, "user", msg), (c.id, "assistant", plan.response_text)]]
      | Option.none => []
    sendEffs ++ profEffs ++ convoEffs

/-- `RealtimeService.run` (lines 112-137): steps 1 and 2 abort silently on
failure; step 3 cannot abort; a null action plan aborts before execution;
otherwise the plan is executed.  `planOracle` is
`gemini_service.think_and_generate_json` constrained to `ActionPlan`
(null-or-object, never an exception); `freshId` is the id the store assigns
to a newly inserted customer. -/
def runService (o : RagOracles)
    (planOracle : Business → LLMContext → String → Option ActionPlan)
    (db : DB) (payload : PyVal) (freshId : String) :
    RunOutcome × DB × List RSEffect :=
  match deconstructAndFetchBusiness db payload with
  | Option.none => (.abortedIdentity, db, [])
  | some (b, phone, msg) =>
    match fetchOrCreateCustomer db payload b.id phone freshId with
    | (Option.none, db1, ceffs) => (.abortedCustomer, db1, ceffs)
    | (some cust, db1, ceffs) =>
      let ctx := gatherContext o db1 (some cust) b.id msg
      match planOracle b ctx msg with
      | Option.none => (.abortedPlan, db1, ceffs)
      | some plan =>
        (.executed, db1, ceffs ++ executeActionPlan b phone (some cust) ctx msg plan)

/-- Outbound-send effect recogniser (an `event_dispatcher` insert). -/
def RSEffect.isOutboundSend : RSEffect → Bool
  | .enqueueOutboundEvent _ _ => true
  | _ => false

/-- ConversationTurn-persistence effect recogniser. -/
def RSEffect.isConversationInsert : RSEffect → Bool
  | .insertConversationRows _ => true
  | _ => false

/-- EndUser-creation effect recogniser. -/
def RSEffect.isCustomerInsert : RSEffect → Bool
  | .insertCustomer _ => true
  | _ => false

/-! ## Tagging Reconciler (`app/services/tagging_service.py`, phase 3)

`_reconcile_tags_in_db` (lines 92-137): build a name→id map from the
tenant's stored tags, then for each refined name match its lowercase form
against the map; unmatched names are created (embedding, insert) and added
to both the result set and the map.  Per-name exceptions are caught and the
name skipped. -/

structure TagRow where
  id : String
  tag_name : String

/-- Oracles for the creation branch: `openai_service.get_embedding` (may
raise) and the store's insert, whose response either carries the new row's
id or no data. -/
structure TagCreateOracle where
  getEmbedding : String → Except PyErr (List Int)
  insertResult : String → List Int → Option String

/-- Store writes of the reconciler. -/
inductive TagEffect where
  | insertTag (tenant_id name : String) (embedding : List Int)
      (assignedId : Option String)

/-- The dict comprehension `{tag.tag_name: tag.id for tag in rows}` (line
102): later rows overwrite earlier ones, and `List.lookup` finds the most
recently added binding first. -/
def buildTagMap (rows : List TagRow) : List (String × String) :=
  rows.foldl (fun m t => (t.tag_name, t.id) :: m) []

/-- `final_tag_ids.add x` on the Python set, modelled as a duplicate-free
list in insertion order. -/
def addSet (s : List String) (x : String) : List String :=
  if x ∈ s then s else s ++ [x]

/-- The reconciliation loop (lines 106-134), carrying the map, the result
set and the effect log. -/
def reconcileGo (o : TagCreateOracle) (tenant : String) :
    List String → List (String × String) → List String → List TagEffect →
    List String × List TagEffect
  | [], _, ids, effs => (ids, effs)
  | n :: rest, m, ids, effs =>
    let nl := pyLower n
    match m.lookup nl with
    | some tid => reconcileGo o tenant rest m (addSet ids tid) effs
    | Option.none =>
      match o.getEmbedding nl with
      | .error _ => reconcileGo o tenant rest m ids effs
      | .ok e =>
        match o.insertResult nl e with
        | some newId =>
          reconcileGo o tenant rest ((nl, newId) :: m) (addSet ids newId)
            (effs ++ [.insertTag tenant nl e (some newId)])
        | Option.none =>
          reconcileGo o tenant rest m ids (effs ++ [.insertTag tenant nl e Option.none])

/-- `_reconcile_tags_in_db`: `existing` is the tenant's stored tag set
fetched once up front; returns the final id set and the creation effects. -/
def reconcileTagsInDb (o : TagCreateOracle) (existing : List TagRow)
    (tenant : String) (refined : List String) : List String × List TagEffect :=
  reconcileGo o tenant refined (buildTagMap existing) [] []

/-! ## Concrete fixtures for closed evaluations -/

/-- Oracles whose calls all succeed (the theorems show they are never
reached where so claimed). -/
def ragOraclesOk : RagOracles :=
  { refineBody := fun q => .ok q
    getEmbedding := fun _ => .ok [1, 2]
    matchKnowledge := fun _ _ => .ok ["chunk"] }

def planOracleNone : Business → LLMContext → String → Option ActionPlan :=
  fun _ _ _ => Option.none

def planOracleHello : Business → LLMContext → String → Option ActionPlan :=
  fun _ _ _ => some { response_text := "hello", tool_calls := [] }

def tagOracleOk : TagCreateOracle :=
  { getEmbedding := fun _ => .ok [3], insertResult := fun _ _ => some "tag-new" }

def sampleBusiness : Business :=
  { id := "b-1", system_prompt := "be kind", business_name := "Acme Bakery"
    whatsapp_phone_number_id := "pid-1" }

/-- A well-formed inbound WhatsApp webhook payload. -/
def samplePayload : PyVal :=
  .dict [("entry", .list [.dict [("changes", .list [.dict [("value", .dict
    [ ("contacts", .list [.dict [ ("wa_id", .str "254700000001")
                                , ("profile", .dict [("name", .str "Jane")]) ]])
    , ("messages", .list [.dict [("text", .dict [("body", .str "what time do you open?")])]])
    , ("metadata", .dict [("phone_number_id", .str "pid-1")]) ])]])]])]

def dbNoCustomers : DB :=
  { businesses := [sampleBusiness], customers := [], conversations := []
    customer_memory := [] }

def sampleTurn (i : Nat) : ConversationRow :=
  { customer_id := "cust-1", role := "user", content := "m", created_at := i }

def dbWithTurns : DB :=
  { businesses := [sampleBusiness]
    customers := [{ id := "cust-1", business_id := "b-1"
                    phone_number := "254700000001", customer_name := "Jane" }]
    conversations := (List.range 10).map sampleTurn
    customer_memory := [] }

def sampleCustomer : Customer :=
  { id := "cust-1", business_id := "b-1", phone_number := "254700000001"
    customer_name := "Jane" }

def dbAfterCreate : DB := { dbNoCustomers with customers := [sampleCustomer] }

def tagsFixture : List TagRow := [⟨"t1", "cake"⟩, ⟨"t2", "pastry"⟩]

/-! # Helper lemmas -/

theorem mem_addSet {s : List String} {x y : String} :
    y ∈ addSet s x ↔ y ∈ s ∨ y = x := by
  unfold addSet
  split
  · rename_i hx
    constructor
    · exact Or.inl
    · rintro (h | rfl)
      · exact h
      · exact hx
  · simp

theorem nodup_addSet {s : List String} {x : String} (h : s.Nodup) :
    (addSet s x).Nodup := by
  unfold addSet
  split
  · exact h
  · rename_i hx
    simp [List.nodup_append, h, hx]

theorem reconcileGo_all_matched (o : TagCreateOracle) (tenant : String)
    (names : List String) :
    ∀ (m : List (String × String)) (ids : List String) (effs : List TagEffect),
    (∀ n ∈ names, (m.lookup (pyLower n)).isSome) →
    (reconcileGo o tenant names m ids effs).2 = effs ∧
    (ids.Nodup → (reconcileGo o tenant names m ids effs).1.Nodup) ∧
    (∀ i, i ∈ (reconcileGo o tenant names m ids effs).1 ↔
      i ∈ ids ∨ ∃ n ∈ names, m.lookup (pyLower n) = some i) := by
  induction names with
  | nil => intro m ids effs _; simp [reconcileGo]
  | cons n rest ih =>
    intro m ids effs h
    obtain ⟨tid, htid⟩ := Option.isSome_iff_exists.mp (h n (by simp))
    have hrest : ∀ x ∈ rest, (m.lookup (pyLower x)).isSome :=
      fun x hx => h x (by simp [hx])
    have IH := ih m (addSet ids tid) effs hrest
    simp only [reconcileGo, htid]
    refine ⟨IH.1, fun hn => IH.2.1 (nodup_addSet hn), fun i => ?_⟩
    rw [IH.2.2 i, mem_addSet]
    constructor
    · rintro ((hi | rfl) | ⟨x, hx, hlx⟩)
      · exact Or.inl hi
      · exact Or.inr ⟨n, by simp, htid⟩
      · exact Or.inr ⟨x, by simp [hx], hlx⟩
    · rintro (hi | ⟨x, hx, hlx⟩)
      · exact Or.inl (Or.inl hi)
      · rcases List.mem_cons.mp hx with rfl | hx2
        · rw [htid] at hlx
          cases hlx
          exact Or.inl (Or.inr rfl)
        · exact Or.inr ⟨x, hx2, hlx⟩

theorem lookup_foldl_tagmap (rows : List TagRow) (k : String) :
    ∀ m : List (String × String),
      ((∃ t ∈ rows, t.tag_name = k) ∨ (m.lookup k).isSome) →
      ((rows.foldl (fun m t => (t.tag_name, t.id) :: m) m).lookup k).isSome := by
  induction rows with
  | nil =>
    intro m h
    rcases h with ⟨t, ht, _⟩ | h
    · exact absurd ht (List.not_mem_nil t)
    · exact h
  | cons t ts ih =>
    intro m h
    rw [List.foldl_cons]
    apply ih
    rcases h with ⟨u, hu, huk⟩ | hm
    · rcases List.mem_cons.mp hu with rfl | hu2
      · right; simp [List.lookup, huk.symm]
      · exact Or.inl ⟨u, hu2, huk⟩
    · right
      by_cases hk : (k == t.tag_name)
      · simp [List.lookup, hk]
      · simp only [List.lookup, hk]
        exact hm

theorem sortDescInsert_append (t : ConversationRow) (m : List ConversationRow)
    (h : ∀ y ∈ m, t.created_at < y.created_at) :
    sortDescInsert t m = m ++ [t] := by
  induction m with
  | nil => rfl
  | cons y ys ih =>
    have hy : ¬ y.created_at ≤ t.created_at := by
      have := h y (List.mem_cons_self y ys)
      omega
    simp only [sortDescInsert, if_neg hy]
    rw [ih (fun z hz => h z (List.mem_cons_of_mem _ hz))]
    rfl

theorem sortByCreatedAtDesc_of_chron (l : List ConversationRow)
    (h : l.Pairwise fun a b => a.created_at < b.created_at) :
    sortByCreatedAtDesc l = l.reverse := by
  induction l with
  | nil => rfl
  | cons x xs ih =>
    rcases List.pairwise_cons.mp h with ⟨hx, hxs⟩
    have hstep : sortByCreatedAtDesc (x :: xs) =
        sortDescInsert x (sortByCreatedAtDesc xs) := rfl
    rw [hstep, ih hxs,
        sortDescInsert_append x xs.reverse (fun y hy => hx y (List.mem_reverse.mp hy)),
        List.reverse_cons]

theorem fetchOrCreateCustomer_effects (db : DB) (payload : PyVal)
    (bid phone freshId : String) :
    ∀ e ∈ (fetchOrCreateCustomer db payload bid phone freshId).2.2,
      ∃ c, e = RSEffect.insertCustomer c := by
  intro e he
  unfold fetchOrCreateCustomer at he
  split at he
  · simp at he
  · split at he
    · simp at he
    · split at he
      · simp at he
      · dsimp only at he
        split at he
        · rcases List.mem_singleton.mp he with rfl
          exact ⟨_, rfl⟩
        · rcases List.mem_singleton.mp he with rfl
          exact ⟨_, rfl⟩

/-! # Claim theorems -/

/-- C4: for every claimed Event whose kind is neither `new_inbound_message`
nor `send_outbound_message`, the Dispatcher marks the Event `failed` and
creates no task of any kind. -/
theorem unroutable_event_fails_without_task (ev : DispatcherEvent)
    (h1 : ev.event_type ≠ "new_inbound_message")
    (h2 : ev.event_type ≠ "send_outbound_message") :
    dispatchClaimedEvent ev = [.updateEventStatus ev.id "failed"] ∧
    ∀ k p, DispatchEffect.insertRealtimeTask k p ∉ dispatchClaimedEvent ev := by
  have e1 : (ev.event_type == "new_inbound_message") = false := by
    simp [h1]
  have e2 : (ev.event_type == "send_outbound_message") = false := by
    simp [h2]
  have hd : dispatchClaimedEvent ev = [.updateEventStatus ev.id "failed"] := by
    unfold dispatchClaimedEvent
    rw [e1, e2]
    rfl
  exact ⟨hd, by simp [hd]⟩

/-- Witness for C4 at the concrete unroutable kind `run_profiling_analysis`. -/
theorem unroutable_event_fails_without_task_witness :
    dispatchClaimedEvent ⟨5, "run_profiling_analysis", .dict []⟩ =
      [.updateEventStatus 5 "failed"] :=
  (unroutable_event_fails_without_task ⟨5, "run_profiling_analysis", .dict []⟩
    (by decide) (by decide)).1

/-- C10: the Dispatcher routes the two known kinds by inserting a realtime
task and performing no Event status write at all, and the only status it
ever writes (the unroutable branch) is `failed` — no code path in
`dispatch_events` marks an Event `done`. -/
theorem dispatcher_writes_only_failed (ev : DispatcherEvent) :
    (ev.event_type = "new_inbound_message" →
      dispatchClaimedEvent ev = [.insertRealtimeTask "handle_user_message" ev.payload]) ∧
    (ev.event_type = "send_outbound_message" →
      dispatchClaimedEvent ev = [.insertRealtimeTask "execute_whatsapp_send" ev.payload]) ∧
    ∀ i s, DispatchEffect.updateEventStatus i s ∈ dispatchClaimedEvent ev → s = "failed" := by
  refine ⟨fun h => by simp [dispatchClaimedEvent, h],
          fun h => by simp [dispatchClaimedEvent, h], ?_⟩
  intro i s hmem
  unfold dispatchClaimedEvent at hmem
  split at hmem
  · simp at hmem
  · split at hmem
    · simp at hmem
    · simp at hmem
      exact hmem.2

/-- Witness for C10 at a concrete routed event. -/
theorem dispatcher_writes_only_failed_witness :
    dispatchClaimedEvent ⟨7, "new_inbound_message", .dict []⟩ =
      [.insertRealtimeTask "handle_user_message" (.dict [])] :=
  (dispatcher_writes_only_failed ⟨7, "new_inbound_message", .dict []⟩).1 rfl

/-- C1 (code bug): a fully populated `execute_whatsapp_send` task for the
implemented channel is NOT delegated and NOT marked complete — the call
`send_whatsapp_message(business_id=..., message_payload=...)` cannot bind
against the callee's parameters `(tenant_id, message_payload)`, so the
branch raises `TypeError` and the worker marks the task `failed`. -/
theorem whatsapp_send_task_marked_failed :
    processClaimedTask orchUnused whatsappSendTask =
      [RTEffect.updateTaskStatus 1 "failed"
        (some "send_whatsapp_message got an unexpected keyword argument business_id")] :=
  rfl

/-- C2: a malformed payload, or one whose routing id matches no business,
resolves the run to the identity abort with no store writes and no
exception reaching the worker. -/
theorem aborted_run_has_zero_side_effects (o : RagOracles)
    (planOracle : Business → LLMContext → String → Option ActionPlan)
    (db : DB) (payload : PyVal) (freshId : String) (err : PyErr)
    (user_phone user_message pid : String)
    (h : parseInbound payload = .error err ∨
      (parseInbound payload = .ok (user_phone, user_message, pid) ∧
       ∀ b ∈ db.businesses, b.whatsapp_phone_number_id ≠ pid)) :
    runService o planOracle db payload freshId = (.abortedIdentity, db, []) := by
  have hd : deconstructAndFetchBusiness db payload = Option.none := by
    rcases h with herr | ⟨hok, hnone⟩
    · simp only [deconstructAndFetchBusiness, herr]
    · have hfilter : db.businesses.filter
          (fun b => b.whatsapp_phone_number_id == pid) = [] := by
        rw [List.filter_eq_nil_iff]
        intro b hb
        simp [hnone b hb]
      have hfb : fetchBusiness db pid = .error (.apiError "single row expected") := by
        unfold fetchBusiness
        rw [hfilter]
      simp only [deconstructAndFetchBusiness, hok, hfb]
  simp only [runService, hd]

/-- Witness for C2 at the concrete malformed payload `{}`. -/
theorem aborted_run_has_zero_side_effects_witness :
    runService ragOraclesOk planOracleHello dbNoCustomers (.dict []) "cust-1" =
      (.abortedIdentity, dbNoCustomers, []) :=
  aborted_run_has_zero_side_effects ragOraclesOk planOracleHello dbNoCustomers
    (.dict []) "cust-1" (.keyError "entry") "" "" "" (Or.inl rfl)

/-- C3: when structured plan generation returns null, the run emits no
outbound-send enqueue and persists no conversation turns, whatever else
happened. -/
theorem null_plan_zero_outbound_zero_turns (o : RagOracles)
    (planOracle : Business → LLMContext → String → Option ActionPlan)
    (db : DB) (payload : PyVal) (freshId : String)
    (hplan : ∀ b ctx msg, planOracle b ctx msg = Option.none) :
    ∀ e ∈ (runService o planOracle db payload freshId).2.2,
      e.isOutboundSend = false ∧ e.isConversationInsert = false := by
  rcases hdec : deconstructAndFetchBusiness db payload with _ | ⟨⟨b, phone, msg⟩⟩
  · intro e he
    simp only [runService, hdec] at he
    simp at he
  · rcases hfc : fetchOrCreateCustomer db payload b.id phone freshId with ⟨oc, db1, ceffs⟩
    have hce : ∀ x ∈ ceffs, ∃ c, x = RSEffect.insertCustomer c := by
      intro x hx
      exact fetchOrCreateCustomer_effects db payload b.id phone freshId x
        (by rw [hfc]; exact hx)
    intro e he
    cases oc with
    | none =>
      simp only [runService, hdec, hfc] at he
      obtain ⟨c, rfl⟩ := hce e he
      exact ⟨rfl, rfl⟩
    | some cust =>
      simp only [runService, hdec, hfc, hplan] at he
      obtain ⟨c, rfl⟩ := hce e he
      exact ⟨rfl, rfl⟩

/-- Witness for C3: with the plan oracle returning null on the sample run,
the one emitted effect is the lazily created customer, which is neither an
outbound send nor a conversation insert. -/
theorem null_plan_zero_outbound_zero_turns_witness :
    RSEffect.isOutboundSend (RSEffect.insertCustomer sampleCustomer) = false ∧
    RSEffect.isConversationInsert (RSEffect.insertCustomer sampleCustomer) = false :=
  null_plan_zero_outbound_zero_turns ragOraclesOk planOracleNone dbNoCustomers
    samplePayload "cust-1" (fun _ _ _ => rfl)
    (RSEffect.insertCustomer sampleCustomer) (List.Mem.head _)

/-- C5: a never-seen (tenant, channel address) pair: the first message
creates exactly one customer record carrying the payload's display name,
and a second sequential run for the same pair finds that record and creates
nothing. -/
theorem first_contact_creates_one_enduser (db : DB) (payload : PyVal)
    (bid phone freshId name : String)
    (hphone : phone ≠ "")
    (hname : payloadProfileName payload = .ok name)
    (hnone : ∀ c ∈ db.customers, ¬(c.business_id = bid ∧ c.phone_number = phone)) :
    fetchOrCreateCustomer db payload bid phone freshId =
      (some ⟨freshId, bid, phone, name⟩,
       { db with customers := db.customers ++ [⟨freshId, bid, phone, name⟩] },
       [RSEffect.insertCustomer ⟨freshId, bid, phone, name⟩]) ∧
    ∀ payload2 freshId2,
      fetchOrCreateCustomer
        { db with customers := db.customers ++ [⟨freshId, bid, phone, name⟩] }
        payload2 bid phone freshId2 =
      (some ⟨freshId, bid, phone, name⟩,
       { db with customers := db.customers ++ [⟨freshId, bid, phone, name⟩] },
       []) := by
  have hguard : (phone == "") = false := by simp [hphone]
  have hfempty : findCustomers db.customers bid phone = [] := by
    unfold findCustomers
    rw [List.filter_eq_nil_iff]
    intro c hc
    have := hnone c hc
    simp only [Bool.and_eq_true, beq_iff_eq]
    tauto
  have hfnew : findCustomers (db.customers ++ [⟨freshId, bid, phone, name⟩]) bid phone =
      [⟨freshId, bid, phone, name⟩] := by
    unfold findCustomers
    rw [List.filter_append]
    unfold findCustomers at hfempty
    rw [hfempty]
    simp
  constructor
  · simp only [fetchOrCreateCustomer, hguard, hfempty, hname, hfnew]
    rfl
  · intro payload2 freshId2
    simp only [fetchOrCreateCustomer, hguard, hfnew]
    rfl

/-- Witness for C5: the first sample message creates the one customer
record. -/
theorem first_contact_creates_one_enduser_witness :
    fetchOrCreateCustomer dbNoCustomers samplePayload "b-1" "254700000001" "cust-1" =
      (some sampleCustomer, dbAfterCreate, [RSEffect.insertCustomer sampleCustomer]) :=
  (first_contact_creates_one_enduser dbNoCustomers samplePayload "b-1" "254700000001"
    "cust-1" "Jane" (by decide) rfl (by simp [dbNoCustomers])).1

/-- C6: with strictly increasing stored timestamps, the assembled history is
exactly the last 8 turns of the end user's stored conversation, and it is
non-decreasing by timestamp (oldest first), having been read newest-first
and reversed. -/
theorem history_last_eight_oldest_first (db : DB) (cid : String)
    (h : (db.conversations.filter fun r => r.customer_id == cid).Pairwise
          fun a b => a.created_at < b.created_at) :
    historyQuery db cid =
      (db.conversations.filter fun r => r.customer_id == cid).drop
        ((db.conversations.filter fun r => r.customer_id == cid).length - 8) ∧
    (historyQuery db cid).Pairwise fun a b => a.created_at ≤ b.created_at := by
  have h1 : historyQuery db cid =
      (db.conversations.filter fun r => r.customer_id == cid).drop
        ((db.conversations.filter fun r => r.customer_id == cid).length - 8) := by
    unfold historyQuery
    rw [sortByCreatedAtDesc_of_chron _ h, ← List.rtake_eq_reverse_take_reverse,
        List.rtake]
  refine ⟨h1, ?_⟩
  rw [h1]
  exact ((h.sublist (List.drop_sublist _ _)).imp fun hab => Nat.le_of_lt hab)

/-- Witness for C6 on a ten-turn stored conversation. -/
theorem history_last_eight_oldest_first_witness :
    historyQuery dbWithTurns "cust-1" =
      (dbWithTurns.conversations.filter fun r => r.customer_id == "cust-1").drop
        ((dbWithTurns.conversations.filter fun r => r.customer_id == "cust-1").length - 8) :=
  (history_last_eight_oldest_first dbWithTurns "cust-1" (by decide)).1

/-- C7: phase-3 reconciliation on a stable tag set — every refined name
already present (case-insensitively) in the tenant's stored, lower-cased
tag set — creates no tag and returns the duplicate-free set of matched
existing ids. -/
theorem reconciler_stable_tagset_idempotent (o : TagCreateOracle)
    (existing : List TagRow) (tenant : String) (refined : List String)
    (hlower : ∀ t ∈ existing, pyLower t.tag_name = t.tag_name)
    (hall : ∀ n ∈ refined, ∃ t ∈ existing, pyLower t.tag_name = pyLower n) :
    (reconcileTagsInDb o existing tenant refined).2 = [] ∧
    (reconcileTagsInDb o existing tenant refined).1.Nodup ∧
    ∀ i, i ∈ (reconcileTagsInDb o existing tenant refined).1 ↔
      ∃ n ∈ refined, (buildTagMap existing).lookup (pyLower n) = some i := by
  have hmatch : ∀ n ∈ refined, ((buildTagMap existing).lookup (pyLower n)).isSome := by
    intro n hn
    obtain ⟨t, ht, htn⟩ := hall n hn
    have heq : t.tag_name = pyLower n := by rw [← hlower t ht, htn]
    exact lookup_foldl_tagmap existing (pyLower n) [] (Or.inl ⟨t, ht, heq⟩)
  have H := reconcileGo_all_matched o tenant refined (buildTagMap existing) [] [] hmatch
  refine ⟨H.1, H.2.1 List.nodup_nil, fun i => ?_⟩
  have hmem := H.2.2 i
  simp only [List.not_mem_nil, false_or] at hmem
  exact hmem

/-- Witness for C7: a tenant storing `cake` and `pastry`, refined names
`["cake", "Pastry", "CAKE"]` — no creation, duplicate-free result. -/
theorem reconciler_stable_tagset_idempotent_witness :
    (reconcileTagsInDb tagOracleOk tagsFixture "b-1" ["cake", "Pastry", "CAKE"]).2 = [] ∧
    (reconcileTagsInDb tagOracleOk tagsFixture "b-1" ["cake", "Pastry", "CAKE"]).1.Nodup :=
  ⟨(reconciler_stable_tagset_idempotent tagOracleOk tagsFixture "b-1"
      ["cake", "Pastry", "CAKE"] (by decide) (by decide)).1,
   (reconciler_stable_tagset_idempotent tagOracleOk tagsFixture "b-1"
      ["cake", "Pastry", "CAKE"] (by decide) (by decide)).2.1⟩

/-- C8: a knowledge-retrieval failure does not abort the run: the gathered
context keeps its history and long-term memory and carries empty knowledge,
and the run proceeds to plan generation. -/
theorem rag_failure_proceeds_with_empty_knowledge (o : RagOracles)
    (planOracle : Business → LLMContext → String → Option ActionPlan)
    (db : DB) (payload : PyVal) (freshId : String) (b : Business)
    (phone msg : String) (cust : Customer) (db1 : DB) (ceffs : List RSEffect)
    (err : PyErr)
    (h1 : deconstructAndFetchBusiness db payload = some (b, phone, msg))
    (h2 : fetchOrCreateCustomer db payload b.id phone freshId = (some cust, db1, ceffs))
    (h3 : ragBlock o b.id msg = .error err) :
    gatherContext o db1 (some cust) b.id msg =
      { history := historyQuery db1 cust.id
        long_term_memory := memoryQuery db1 cust.id
        rag_knowledge := [] } ∧
    runService o planOracle db payload freshId =
      (match planOracle b (gatherContext o db1 (some cust) b.id msg) msg with
       | Option.none => (.abortedPlan, db1, ceffs)
       | some plan => (.executed, db1, ceffs ++
           executeActionPlan b phone (some cust)
             (gatherContext o db1 (some cust) b.id msg) msg plan)) := by
  constructor
  · unfold gatherContext
    by_cases hm : (msg == "")
    · simp [hm]
    · simp [hm, h3]
  · simp only [runService, h1, h2]

/-- Witness for C8: the retrieval pipeline of the sample run fails (the
rewrite call cannot bind), and the gathered context still carries the
stored history and memory with empty knowledge. -/
theorem rag_failure_proceeds_with_empty_knowledge_witness :
    gatherContext ragOraclesOk dbAfterCreate (some sampleCustomer) "b-1"
      "what time do you open?" =
      { history := historyQuery dbAfterCreate "cust-1"
        long_term_memory := memoryQuery dbAfterCreate "cust-1"
        rag_knowledge := [] } :=
  (rag_failure_proceeds_with_empty_knowledge ragOraclesOk planOracleHello dbNoCustomers
    samplePayload "cust-1" sampleBusiness "254700000001" "what time do you open?"
    sampleCustomer dbAfterCreate [RSEffect.insertCustomer sampleCustomer]
    (.typeError "refine_user_query missing required positional arguments")
    rfl rfl rfl).1

/-- C9: the assembled knowledge context is always empty: the
`refine_user_query` call supplies one positional argument against four
required parameters, so the retrieval block raises before the embedding and
similarity-search oracles can matter — the context is independent of them
and its knowledge list is `[]`, the exception being swallowed. -/
theorem knowledge_context_always_empty (o o2 : RagOracles) (db : DB)
    (cust : Option Customer) (bid msg : String) :
    (gatherContext o db cust bid msg).rag_knowledge = [] ∧
    gatherContext o db cust bid msg = gatherContext o2 db cust bid msg ∧
    ∀ q, callRefineUserQuery o q =
      .error (.typeError "refine_user_query missing required positional arguments") := by
  have hr : ∀ (oo : RagOracles) (m : String),
      ragBlock oo bid m =
        .error (.typeError "refine_user_query missing required positional arguments") :=
    fun _ _ => rfl
  refine ⟨?_, ?_, fun _ => rfl⟩
  · unfold gatherContext
    by_cases hm : (msg == "") <;> simp [hm, hr]
  · unfold gatherContext
    by_cases hm : (msg == "") <;> simp [hm, hr]

end AstroEngine
